import Mathlib

/-!
Verification development for the GI-data CSV cleaning pipeline
(`csv_cleaning.py`).  The Python source is shallowly embedded: pandas
DataFrames become lists of header labels plus rows of cells, the per-cell
cleaning functions become pure Lean functions, and the library calls whose
behaviour the code relies on (`datetime.strptime` for the six explicit
formats, `pd.to_numeric` on decimal strings) are modelled directly.
-/

namespace CsvCleaning

/-- ASCII whitespace, as stripped by the Python method `str.strip()`. -/
def isPySpace (c : Char) : Bool :=
  c = ' ' || c = '\t' || c = '\n' || c = '\r' || c = '\x0b' || c = '\x0c'

/-- Model of Python `str.strip()`: drop leading and trailing whitespace. -/
def pyStrip (s : String) : String :=
  ⟨(((s.data.dropWhile isPySpace).reverse).dropWhile isPySpace).reverse⟩

/-- Model of `str.replace(",", "")`: remove every comma. -/
def stripCommas (s : String) : String :=
  ⟨s.data.filter (fun c => !(c = ','))⟩

/-- Numeric value of a decimal digit character. -/
def digitVal (c : Char) : Nat := c.toNat - '0'.toNat

/-- Value of a list of decimal digit characters. -/
def digitsToNat (cs : List Char) : Nat :=
  cs.foldl (fun n c => n * 10 + digitVal c) 0

/-- A calendar date as year/month/day numbers. -/
structure YMD where
  y : Nat
  m : Nat
  d : Nat
deriving DecidableEq, Repr

/-- Gregorian leap year, as validated by `datetime`. -/
def isLeap (y : Nat) : Bool :=
  y % 4 = 0 && (!(y % 100 = 0) || y % 400 = 0)

/-- Number of days in a month, as validated by the `datetime` constructor. -/
def monthLength (y m : Nat) : Nat :=
  if m = 2 then (if isLeap y then 29 else 28)
  else if m = 4 || m = 6 || m = 9 || m = 11 then 30
  else 31

/-- Range checks performed by the `datetime` constructor. -/
def validYMD (y m d : Nat) : Bool :=
  1 ≤ y && y ≤ 9999 && 1 ≤ m && m ≤ 12 && 1 ≤ d && d ≤ monthLength y m

/-- The three date fields appearing in a format pattern. -/
inductive DateField
  | year
  | month
  | day
deriving DecidableEq, Repr, BEq

/-- One of the explicit `strptime` patterns tried by `parse_date_flexible`:
three fields joined by a single separator character. -/
structure DateFmt where
  first : DateField
  second : DateField
  third : DateField
  sep : Char
deriving DecidableEq, Repr

/-- Parses of `%m` at the head of the input, in the preference order of the
CPython `_strptime` regex `1[0-2]|0[1-9]|[1-9]`. -/
def monthAlts : List Char → List (Nat × List Char)
  | c1 :: c2 :: rest =>
    (if c1 = '1' && '0' ≤ c2 && c2 ≤ '2' then [(10 + digitVal c2, rest)] else []) ++
    (if c1 = '0' && '1' ≤ c2 && c2 ≤ '9' then [(digitVal c2, rest)] else []) ++
    (if '1' ≤ c1 && c1 ≤ '9' then [(digitVal c1, c2 :: rest)] else [])
  | [c1] => if '1' ≤ c1 && c1 ≤ '9' then [(digitVal c1, [])] else []
  | [] => []

/-- Parses of `%d` at the head of the input, in the preference order of the
CPython `_strptime` regex `3[01]|[12]\d|0[1-9]|[1-9]`. -/
def dayAlts : List Char → List (Nat × List Char)
  | c1 :: c2 :: rest =>
    (if c1 = '3' && '0' ≤ c2 && c2 ≤ '1' then [(30 + digitVal c2, rest)] else []) ++
    (if ('1' ≤ c1 && c1 ≤ '2') && c2.isDigit then
      [(digitVal c1 * 10 + digitVal c2, rest)] else []) ++
    (if c1 = '0' && '1' ≤ c2 && c2 ≤ '9' then [(digitVal c2, rest)] else []) ++
    (if '1' ≤ c1 && c1 ≤ '9' then [(digitVal c1, c2 :: rest)] else [])
  | [c1] => if '1' ≤ c1 && c1 ≤ '9' then [(digitVal c1, [])] else []
  | [] => []

/-- Parses of `%Y` at the head of the input: exactly four digits, per the
CPython `_strptime` regex for the year field. -/
def yearAlts : List Char → List (Nat × List Char)
  | c1 :: c2 :: c3 :: c4 :: rest =>
    if c1.isDigit && c2.isDigit && c3.isDigit && c4.isDigit then
      [(digitsToNat [c1, c2, c3, c4], rest)] else []
  | _ => []

/-- Alternative parses for one field of a format, in regex preference order. -/
def fieldAlts : DateField → List Char → List (Nat × List Char)
  | .year => yearAlts
  | .month => monthAlts
  | .day => dayAlts

/-- Run a three-field pattern with backtracking over the per-field
alternatives, exactly as the compiled `_strptime` regex would: earlier
alternatives of earlier fields are preferred, the first parse under which
the rest of the pattern also matches wins, and the unconsumed tail is
returned for the full-consumption check of the caller. -/
def runFmt (f : DateFmt) (cs : List Char) : Option ((Nat × Nat × Nat) × List Char) :=
  (fieldAlts f.first cs).findSome? fun p1 =>
    match p1.2 with
    | c :: r1 =>
      if c = f.sep then
        (fieldAlts f.second r1).findSome? fun p2 =>
          match p2.2 with
          | c' :: r2 =>
            if c' = f.sep then
              (fieldAlts f.third r2).findSome? fun p3 =>
                some ((p1.1, p2.1, p3.1), p3.2)
            else none
          | [] => none
      else none
    | [] => none

/-- Read off the value of a given field from the three parsed components. -/
def fieldValue (f : DateFmt) (v1 v2 v3 : Nat) (t : DateField) : Nat :=
  if f.first == t then v1 else if f.second == t then v2
  else if f.third == t then v3 else 0

/-- Model of `datetime.strptime(date_str.strip(), fmt)` for one of the six
explicit patterns: the regex must match, the whole string must be consumed,
and the resulting fields must form a real calendar date; any failure is the
`ValueError` that `parse_date_flexible` catches. -/
def strptimeFmt (f : DateFmt) (s : String) : Option YMD :=
  match runFmt f (pyStrip s).data with
  | some (vs, rest) =>
    if rest = [] then
      let y := fieldValue f vs.1 vs.2.1 vs.2.2 .year
      let m := fieldValue f vs.1 vs.2.1 vs.2.2 .month
      let d := fieldValue f vs.1 vs.2.1 vs.2.2 .day
      if validYMD y m d then some ⟨y, m, d⟩ else none
    else none
  | none => none

/-- The fixed ordered format list of `parse_date_flexible`
(`%Y-%m-%d`, `%m/%d/%Y`, `%d/%m/%Y`, `%Y/%m/%d`, `%m-%d-%Y`, `%d-%m-%Y`). -/
def dateFormats : List DateFmt :=
  [⟨.year, .month, .day, '-'⟩,
   ⟨.month, .day, .year, '/'⟩,
   ⟨.day, .month, .year, '/'⟩,
   ⟨.year, .month, .day, '/'⟩,
   ⟨.month, .day, .year, '-'⟩,
   ⟨.day, .month, .year, '-'⟩]

/-- Left-pad with zeros to two digits, as `strftime` does for `%m`/`%d`. -/
def pad2 (n : Nat) : String :=
  if n < 10 then "0" ++ toString n else toString n

/-- Left-pad with zeros to four digits, as `strftime` renders `%Y` here. -/
def pad4 (n : Nat) : String :=
  if n < 10 then "000" ++ toString n
  else if n < 100 then "00" ++ toString n
  else if n < 1000 then "0" ++ toString n
  else toString n

/-- Model of `dt.strftime("%Y-%m-%d")`. -/
def renderISO (d : YMD) : String :=
  pad4 d.y ++ "-" ++ pad2 d.m ++ "-" ++ pad2 d.d

/-- Render a date in one of the six explicit input formats (two-digit
month and day, four-digit year, joined by the separator of the format). -/
def renderInFmt (f : DateFmt) (d : YMD) : String :=
  let part : DateField → String := fun t =>
    match t with
    | .year => pad4 d.y
    | .month => pad2 d.m
    | .day => pad2 d.d
  part f.first ++ ⟨[f.sep]⟩ ++ part f.second ++ ⟨[f.sep]⟩ ++ part f.third

/-- Model of `CSVCleaner.parse_date_flexible`.  The trailing permissive
parser (`pd.to_datetime(..., errors="coerce", dayfirst=False)`) is a library
call outside the repository; it is passed in as the abstract function `fb`,
with `none` standing for a `NaT`/failure result.  The explicit-format loop
and the missing-token short-circuit are modelled from the source. -/
def parse_date_flexible (fb : String → Option YMD) (s : String) : String :=
  if s = "" || s = "nan" then ""
  else
    match dateFormats.findSome? (fun f => strptimeFmt f s) with
    | some d => renderISO d
    | none =>
      match fb s with
      | some d => renderISO d
      | none => ""

/-- A fallback oracle on which `pd.to_datetime` always coerces to `NaT`;
used to instantiate theorems whose inputs never reach the fallback. -/
def fbNone : String → Option YMD := fun _ => none

/-- Model of `pd.to_numeric(..., errors="coerce")` on an already-stripped
string: an optional sign, then a decimal number with an optional fractional
part; anything else coerces to `NaN`, here `none`. -/
def toNumeric (s : String) : Option Rat :=
  let signed : Int × List Char :=
    match s.data with
    | '+' :: r => (1, r)
    | '-' :: r => (-1, r)
    | cs => (1, cs)
  let intPart := signed.2.takeWhile Char.isDigit
  let rest := signed.2.dropWhile Char.isDigit
  match rest with
  | [] =>
    if intPart.isEmpty then none
    else some ((signed.1 * (digitsToNat intPart : Int) : Int) : Rat)
  | '.' :: fracCs =>
    let frac := fracCs.takeWhile Char.isDigit
    if fracCs.dropWhile Char.isDigit = [] && !(intPart.isEmpty && frac.isEmpty) then
      some (((signed.1 * (digitsToNat (intPart ++ frac) : Int) : Int) : Rat)
        / ((10 : Rat) ^ frac.length))
    else none
  | _ => none

/-- Model of one cell of `CSVCleaner.process_numeric_columns` (source lines
302-304): remove commas, strip whitespace, turn the empty string into a
missing value, then coerce to a number with parse failures becoming
missing (`pd.to_numeric(..., errors="coerce")`). -/
def cleanNumericCell (s : String) : Option Rat :=
  let t := pyStrip (stripCommas s)
  if t = "" then none else toNumeric t

/-- Model of one cell of `CSVCleaner.clean_string_data` (source lines
223-227): strip whitespace, then replace a cell that is exactly the literal
string `nan` by the empty string. -/
def cleanStringCell (s : String) : String :=
  let t := pyStrip s
  if t = "nan" then "" else t

/-- Table `CSVCleaner.COLUMN_MAPPING`: source label to canonical identifier. -/
def COLUMN_MAPPING : List (String × String) :=
  [("Material", "material_id"),
   ("Delivery #", "delivery_number"),
   ("Ship-to", "ship_to"),
   ("Carrier", "carrier_name"),
   ("ShpPoint", "shipping_point"),
   ("SO Created Date", "so_created_date"),
   ("Ac.GI date", "ac_gi_date"),
   ("Delivery Date", "delivery_date"),
   ("IOD from 3PL", "iod_from_3pl"),
   ("PlanShipSt", "planned_ship_start"),
   ("S.Org(G)", "sales_org"),
   ("P/O #", "purchase_order"),
   ("Type", "record_type"),
   ("Shipment", "shipment_number"),
   ("Sold-to", "sold_to"),
   ("[WE]Name1", "customer_name"),
   ("[WE]State", "customer_state"),
   ("Pro #", "pro_number"),
   ("DOCrtDate", "document_created_date"),
   ("Serial no. profile", "serial_no_profile"),
   ("Ship Crt", "ship_crt"),
   ("G/I Date", "g_i_date"),
   ("PlanLoadSt", "planloadst"),
   ("[WE]Street", "we_street"),
   ("[WE]City", "we_city"),
   ("[WE]Country", "we_country"),
   ("[WE]Zipcode", "we_zipcode"),
   ("Division", "division"),
   ("Quantity", "quantity"),
   ("Plan G/I (DO)", "plan_g_i_do_"),
   ("Qty.Unit", "qty_unit"),
   ("Delivery type", "delivery_type"),
   ("DOCrtTime", "docrttime"),
   ("Material Group", "material_group"),
   ("Volume", "volume"),
   ("Vol.Unit", "vol_unit"),
   ("Weight", "weight"),
   ("Wgt.Unit", "wgt_unit"),
   ("ShTy", "shty"),
   ("S/O #", "s_o_"),
   ("S/O item#", "s_o_item_"),
   ("P/O item#", "p_o_item_"),
   ("Cust.Grp", "cust_grp"),
   ("Escort/Txt3", "escort_txt3"),
   ("ActLT", "actlt")]

/-- List `CSVCleaner.NUMERIC_COLUMNS`. -/
def NUMERIC_COLUMNS : List String :=
  ["delivery_number", "sales_org", "shipment_number", "quantity",
   "volume", "weight", "s_o_", "s_o_item_", "actlt"]

/-- List `CSVCleaner.DATE_COLUMNS`. -/
def DATE_COLUMNS : List String :=
  ["so_created_date", "ac_gi_date", "delivery_date", "iod_from_3pl",
   "planned_ship_start", "document_created_date", "ship_crt", "g_i_date",
   "planloadst", "plan_g_i_do_"]

/-- List `CSVCleaner.COLUMNS_TO_DROP`. -/
def COLUMNS_TO_DROP : List String := ["Status"]

/-- A raw parsed CSV: header labels plus rows of string cells, as read with
`dtype=str, na_filter=False` (everything a string, nothing null). -/
structure RawTable where
  hdr : List String
  rows : List (List String)
deriving DecidableEq, Repr

/-- A cell of the cleaned dataset: string columns stay strings, numeric
columns become numbers with `none` for the `NaN` of a failed coercion. -/
inductive Cell
  | str (v : String)
  | num (v : Option Rat)
deriving DecidableEq, Repr

/-- The cleaned dataset produced by the pipeline. -/
structure CleanTable where
  hdr : List String
  rows : List (List Cell)
deriving DecidableEq, Repr

/-- Model of pandas `isnull` on one cell of the cleaned dataset: only the
`NaN` produced by numeric coercion is null; a string, even empty, is not. -/
def cellIsNull : Cell → Bool
  | .num none => true
  | _ => false

/-- Select the cells of a row whose header label satisfies `p`, mirroring
pandas column selection `df[cols]` by label. -/
def selectByHeader (p : String → Bool) (hdr row : List String) : List String :=
  ((hdr.zip row).filter (fun lc => p lc.1)).map (fun lc => lc.2)

/-- Model of `CSVCleaner.clean_column_names` (source lines 165-186): drop
columns whose label is empty, then strip whitespace from the labels kept.
(The unknown-column check only logs a warning and changes nothing.) -/
def clean_column_names (t : RawTable) : RawTable :=
  let keep : String → Bool := fun c => !(c = "")
  ⟨(t.hdr.filter keep).map pyStrip, t.rows.map (selectByHeader keep t.hdr)⟩

/-- The source labels of a mapping. -/
def mappingKeys (mapping : List (String × String)) : List String :=
  mapping.map Prod.fst

/-- Rename a label through a mapping, leaving unmapped labels unchanged
(pandas `DataFrame.rename`). -/
def renameWith (mapping : List (String × String)) (c : String) : String :=
  match mapping.lookup c with
  | some v => v
  | none => c

/-- The source labels that survive `CSVCleaner.filter_and_rename_columns`
with a given mapping and drop list: first keep only mapped labels (source
line 199-200), then remove the drop list (lines 203-205); the generic
mapping and drop list mirror the `self.COLUMN_MAPPING` /
`self.COLUMNS_TO_DROP` attributes the method reads. -/
def survivorsWith (mapping : List (String × String)) (dropSet cols : List String) :
    List String :=
  (cols.filter (fun c => (mappingKeys mapping).contains c)).filter
    (fun c => !(dropSet.contains c))

/-- Model of `CSVCleaner.filter_and_rename_columns` (source lines 188-211):
keep mapped columns, drop the drop list, rename to canonical identifiers. -/
def filter_and_rename_columns (t : RawTable) : RawTable :=
  let p1 : String → Bool := fun c => (mappingKeys COLUMN_MAPPING).contains c
  let t1 : RawTable := ⟨t.hdr.filter p1, t.rows.map (selectByHeader p1 t.hdr)⟩
  let p2 : String → Bool := fun c => !(COLUMNS_TO_DROP.contains c)
  let t2 : RawTable := ⟨t1.hdr.filter p2, t1.rows.map (selectByHeader p2 t1.hdr)⟩
  ⟨t2.hdr.map (renameWith COLUMN_MAPPING), t2.rows⟩

/-- Model of `CSVCleaner.clean_string_data` (source lines 213-229): every
column has string dtype, so every cell is stripped and a literal `nan` cell
becomes empty. -/
def clean_string_data (t : RawTable) : RawTable :=
  ⟨t.hdr, t.rows.map (fun r => r.map cleanStringCell)⟩

/-- Model of `CSVCleaner.process_date_columns` (source lines 271-286):
apply `parse_date_flexible` to every cell of every declared date column. -/
def process_date_columns (fb : String → Option YMD) (t : RawTable) : RawTable :=
  ⟨t.hdr, t.rows.map (fun r =>
    (t.hdr.zip r).map (fun cv =>
      if DATE_COLUMNS.contains cv.1 then parse_date_flexible fb cv.2 else cv.2))⟩

/-- Model of `CSVCleaner.process_numeric_columns` (source lines 288-306):
declared numeric columns are coerced cell-wise to numbers (missing on
failure); every other column keeps its string cells. -/
def process_numeric_columns (t : RawTable) : CleanTable :=
  ⟨t.hdr, t.rows.map (fun r =>
    (t.hdr.zip r).map (fun cv =>
      if NUMERIC_COLUMNS.contains cv.1 then Cell.num (cleanNumericCell cv.2)
      else Cell.str cv.2))⟩

/-- The per-file processing pipeline of `CSVCleaner.clean_csv` (source
lines 358-363), in source order. -/
def cleanPipeline (fb : String → Option YMD) (t : RawTable) : CleanTable :=
  process_numeric_columns
    (process_date_columns fb
      (clean_string_data
        (filter_and_rename_columns
          (clean_column_names t))))

/-- The dictionary returned by `CSVCleaner.validate_data`.  (The
human-readable percentage suffix of the `columns_with_nulls` entries is
elided: only the column names are kept.) -/
structure ValidationReport where
  total_rows : Nat
  empty_rows : Nat
  columns_with_nulls : List String
deriving DecidableEq, Repr

/-- Number of rows whose cell in column `i` is null. -/
def colNullCount (ct : CleanTable) (i : Nat) : Nat :=
  (ct.rows.filter (fun r =>
    match r[i]? with
    | some c => cellIsNull c
    | none => false)).length

/-- Model of `CSVCleaner.validate_data` (source lines 308-332):
`total_rows` is the row count, `empty_rows` is
`df.isnull().all(axis=1).sum()`, and `columns_with_nulls` lists the columns
whose null percentage strictly exceeds 50. -/
def validate_data (ct : CleanTable) : ValidationReport :=
  { total_rows := ct.rows.length
    empty_rows := (ct.rows.filter (fun r => r.all cellIsNull)).length
    columns_with_nulls :=
      ((List.range ct.hdr.length).filter
        (fun i => ct.rows.length < 2 * colNullCount ct i)).map
        (fun i => ct.hdr.getD i "") }

/-- The ordered candidate-encoding list built by
`CSVCleaner.read_csv_with_fallback` (source line 137) from the
`detect_encoding` guess. -/
def candidateEncodings (guess : String) : List String :=
  [guess, "utf-8", "latin1", "cp1252"]

/-- The deduplicated candidate list the specification describes: duplicates
removed, first occurrence kept. -/
def specDedup : List String → List String
  | [] => []
  | x :: xs => x :: (specDedup xs).filter (fun y => !(y = x))

/-- Outcome of one `pd.read_csv` attempt at a given encoding: success, a
`UnicodeDecodeError` (source line 156), or any other exception (source line
159) — both error kinds make the loop continue. -/
inductive ReadOutcome
  | ok (df : RawTable)
  | unicodeError
  | otherError
deriving DecidableEq, Repr

/-- Whether an attempt outcome is a successful read. -/
def ReadOutcome.isOk : ReadOutcome → Bool
  | .ok _ => true
  | _ => false

/-- The encoding loop of `read_csv_with_fallback` (source lines 139-161):
return the first successful read, continuing past every failed attempt. -/
def readFallbackGo (attempt : String → ReadOutcome) : List String → Option RawTable
  | [] => none
  | e :: rest =>
    match attempt e with
    | .ok df => some df
    | _ => readFallbackGo attempt rest

/-- The encodings actually attempted by the loop: every candidate up to and
including the first success, or all of them when none succeeds. -/
def readAttempts (attempt : String → ReadOutcome) : List String → List String
  | [] => []
  | e :: rest =>
    match attempt e with
    | .ok _ => [e]
    | _ => e :: readAttempts attempt rest

/-- Model of `CSVCleaner.read_csv_with_fallback` (source lines 124-163):
try each candidate encoding in order, return the first successful parse,
and raise `Exception(f"Failed to read {file_path} with any encoding")`
when every attempt fails. -/
def read_csv_with_fallback (attempt : String → ReadOutcome) (guess path : String) :
    Except String RawTable :=
  match readFallbackGo attempt (candidateEncodings guess) with
  | some df => .ok df
  | none => .error ("Failed to read " ++ path ++ " with any encoding")

/-- The `self.stats` dictionary of `CSVCleaner`. -/
structure PipelineStats where
  files_processed : Nat
  rows_processed : Nat
  errors : List String
deriving DecidableEq, Repr

/-- The error message recorded by `CSVCleaner.clean_csv` when processing a
file fails (source line 386). -/
def cleanErrMsg (path cause : String) : String :=
  "Failed to clean " ++ path ++ ": " ++ cause

/-- Outcome of processing one file, at the granularity of the
`clean_csv` try block: success with a row count, an empty parse, or a
failure (unreadable file, write error, ...) with its cause. -/
inductive FileResult
  | ok (rows : Nat)
  | isEmpty
  | failed (cause : String)
deriving DecidableEq, Repr

/-- Whether a file outcome is a success. -/
def FileResult.isOk : FileResult → Bool
  | .ok _ => true
  | _ => false

/-- Model of the effect of `CSVCleaner.clean_csv` on `self.stats` and its return
value (source lines 334-389): a failure is caught, recorded as an error
message, and reported as `False`; an empty parse returns `False` with no
error recorded; success updates the two counters and returns `True`. -/
def cleanCsvStep (res : FileResult) (path : String) (s : PipelineStats) :
    PipelineStats × Bool :=
  match res with
  | .ok n =>
    ({ s with files_processed := s.files_processed + 1
              rows_processed := s.rows_processed + n }, true)
  | .isEmpty => (s, false)
  | .failed c => ({ s with errors := s.errors ++ [cleanErrMsg path c] }, false)

/-- Model of the per-file loop of `CSVCleaner.clean_directory` (source
lines 424-426): process each file in order, never stopping on a failure,
and write an output file `cleaned_<name>` exactly for the successes. -/
def cleanDirectoryGo (outcome : String → FileResult) :
    List String → PipelineStats → PipelineStats × List String
  | [], s => (s, [])
  | f :: rest, s =>
    let step := cleanCsvStep (outcome f) f s
    let tail := cleanDirectoryGo outcome rest step.1
    (tail.1, (if step.2 then ["cleaned_" ++ f] else []) ++ tail.2)

/-- Model of `CSVCleaner.clean_csv` at data granularity (source lines
334-389): `raw` is the parse result of `read_csv_with_fallback` (`none`
when reading raised), the empty check mirrors `df.empty`, and the returned
dataset is the one written to the output file.  The stats accumulator is
threaded explicitly to expose that the output never depends on it. -/
def cleanCsvData (fb : String → Option YMD) (path : String)
    (raw : Option RawTable) (s : PipelineStats) :
    PipelineStats × Option CleanTable :=
  match raw with
  | none =>
    ({ s with errors :=
        s.errors ++ [cleanErrMsg path ("Failed to read " ++ path ++ " with any encoding")] },
     none)
  | some t =>
    if t.hdr.isEmpty || t.rows.isEmpty then (s, none)
    else
      let ct := cleanPipeline fb t
      ({ s with files_processed := s.files_processed + 1
                rows_processed := s.rows_processed + ct.rows.length },
       some ct)

/-- Well-formedness of a raw table: every row matches the header width. -/
def wfTable (t : RawTable) : Prop :=
  ∀ r ∈ t.rows, r.length = t.hdr.length

/-- Behaviour of `pd.read_csv` on a zero-byte file: under every encoding it
raises `EmptyDataError`, which is not a `UnicodeDecodeError`. -/
def emptyFileAttempt : String → ReadOutcome := fun _ => .otherError

/-!  Helper lemmas shared by the claim theorems. -/

/-- Boolean list membership agrees with propositional membership. -/
theorem contains_eq_true_iff {l : List String} {a : String} :
    l.contains a = true ↔ a ∈ l := by
  simp [List.contains, List.elem_iff]

/-- Boolean list non-membership agrees with propositional non-membership. -/
theorem contains_eq_false_iff {l : List String} {a : String} :
    l.contains a = false ↔ a ∉ l := by
  rw [← Bool.not_eq_true, contains_eq_true_iff]

/-- Unfolding of `selectByHeader` on a cons cell. -/
theorem selectByHeader_cons (p : String → Bool) (a b : String)
    (as bs : List String) :
    selectByHeader p (a :: as) (b :: bs)
      = (if p a then [b] else []) ++ selectByHeader p as bs := by
  by_cases hp : p a <;> simp [selectByHeader, hp]

/-- Selecting by header keeps as many cells as labels survive the filter,
provided the row is as long as the header. -/
theorem selectByHeader_length (p : String → Bool) :
    ∀ (hdr row : List String), row.length = hdr.length →
      (selectByHeader p hdr row).length = (hdr.filter p).length := by
  intro hdr
  induction hdr with
  | nil =>
    intro row h
    rw [List.length_nil] at h
    rw [List.eq_nil_of_length_eq_zero h]
    rfl
  | cons a as ih =>
    intro row h
    cases row with
    | nil => simp at h
    | cons b bs =>
      simp only [List.length_cons, Nat.add_right_cancel_iff] at h
      rw [selectByHeader_cons, List.filter_cons]
      by_cases hp : p a <;> simp [hp, ih bs h]

/-- Column-name cleaning preserves well-formedness. -/
theorem wf_clean_column_names {t : RawTable} (h : wfTable t) :
    wfTable (clean_column_names t) := by
  intro r hr
  simp only [clean_column_names, List.mem_map] at hr
  obtain ⟨r0, hr0, rfl⟩ := hr
  simp only [clean_column_names, List.length_map]
  exact selectByHeader_length _ _ _ (h r0 hr0)

/-- Column filtering and renaming preserves well-formedness. -/
theorem wf_filter_and_rename_columns {t : RawTable} (h : wfTable t) :
    wfTable (filter_and_rename_columns t) := by
  intro r hr
  simp only [filter_and_rename_columns, List.mem_map] at hr
  obtain ⟨r1, hr1, rfl⟩ := hr
  obtain ⟨r0, hr0, rfl⟩ := hr1
  simp only [filter_and_rename_columns, List.length_map]
  rw [selectByHeader_length _ _ _ (selectByHeader_length _ _ _ (h r0 hr0))]

/-- String cleaning preserves well-formedness. -/
theorem wf_clean_string_data {t : RawTable} (h : wfTable t) :
    wfTable (clean_string_data t) := by
  intro r hr
  simp only [clean_string_data, List.mem_map] at hr
  obtain ⟨r0, hr0, rfl⟩ := hr
  simp [clean_string_data, h r0 hr0]

/-- Date processing preserves well-formedness. -/
theorem wf_process_date_columns {fb : String → Option YMD} {t : RawTable}
    (h : wfTable t) : wfTable (process_date_columns fb t) := by
  intro r hr
  simp only [process_date_columns, List.mem_map] at hr
  obtain ⟨r0, hr0, rfl⟩ := hr
  simp [process_date_columns, h r0 hr0]

/-- The read loop returns nothing exactly when every candidate fails. -/
theorem readFallbackGo_eq_none_iff (attempt : String → ReadOutcome)
    (l : List String) :
    readFallbackGo attempt l = none ↔ ∀ e ∈ l, (attempt e).isOk = false := by
  induction l with
  | nil => simp [readFallbackGo]
  | cons e rest ih =>
    unfold readFallbackGo
    cases hae : attempt e with
    | ok df => simp [hae, ReadOutcome.isOk]
    | unicodeError => simp [hae, ih, ReadOutcome.isOk]
    | otherError => simp [hae, ih, ReadOutcome.isOk]

/-- When every attempt in a list fails, the loop attempts all of them. -/
theorem readAttempts_all_fail (attempt : String → ReadOutcome)
    (l : List String) (h : ∀ e ∈ l, (attempt e).isOk = false) :
    readAttempts attempt l = l := by
  induction l with
  | nil => rfl
  | cons e rest ih =>
    have he := h e (by simp)
    unfold readAttempts
    cases hae : attempt e with
    | ok df => rw [hae] at he; simp [ReadOutcome.isOk] at he
    | unicodeError =>
      rw [ih (fun x hx => h x (List.mem_cons_of_mem e hx))]
    | otherError =>
      rw [ih (fun x hx => h x (List.mem_cons_of_mem e hx))]

/-- The first successful candidate wins and ends the loop. -/
theorem readFallbackGo_first_success (attempt : String → ReadOutcome)
    (e : String) (df : RawTable) :
    ∀ (pre post : List String),
      (∀ x ∈ pre, (attempt x).isOk = false) → attempt e = .ok df →
      readFallbackGo attempt (pre ++ e :: post) = some df
      ∧ readAttempts attempt (pre ++ e :: post) = pre ++ [e] := by
  intro pre
  induction pre with
  | nil =>
    intro post _ he
    rw [List.nil_append, List.nil_append]
    constructor
    · unfold readFallbackGo
      rw [he]
    · unfold readAttempts
      rw [he]
  | cons p ps ih =>
    intro post hpre he
    have hp := hpre p (by simp)
    have tail := ih post (fun x hx => hpre x (List.mem_cons_of_mem p hx)) he
    cases hap : attempt p with
    | ok df' => rw [hap] at hp; simp [ReadOutcome.isOk] at hp
    | unicodeError =>
      constructor
      · show readFallbackGo attempt (p :: (ps ++ e :: post)) = some df
        unfold readFallbackGo
        rw [hap]
        exact tail.1
      · show readAttempts attempt (p :: (ps ++ e :: post)) = p :: (ps ++ [e])
        unfold readAttempts
        rw [hap, tail.2]
    | otherError =>
      constructor
      · show readFallbackGo attempt (p :: (ps ++ e :: post)) = some df
        unfold readFallbackGo
        rw [hap]
        exact tail.1
      · show readAttempts attempt (p :: (ps ++ e :: post)) = p :: (ps ++ [e])
        unfold readAttempts
        rw [hap, tail.2]

/-- Computation rule for success of a successful file outcome. -/
theorem fileResult_isOk_ok (n : Nat) : (FileResult.ok n).isOk = true := rfl

/-- Computation rule for success of an empty-parse file outcome. -/
theorem fileResult_isOk_isEmpty : FileResult.isEmpty.isOk = false := rfl

/-- Computation rule for success of a failed file outcome. -/
theorem fileResult_isOk_failed (c : String) :
    (FileResult.failed c).isOk = false := rfl

/-- Errors accumulated and outputs written by the directory loop. -/
theorem cleanDirectoryGo_spec (outcome : String → FileResult) :
    ∀ (files : List String) (s : PipelineStats),
      (cleanDirectoryGo outcome files s).1.errors
        = s.errors ++ files.filterMap (fun f =>
            match outcome f with
            | .failed c => some (cleanErrMsg f c)
            | _ => none)
      ∧ (cleanDirectoryGo outcome files s).2
        = (files.filter (fun f => (outcome f).isOk)).map
            (fun f => "cleaned_" ++ f) := by
  intro files
  induction files with
  | nil => intro s; simp [cleanDirectoryGo]
  | cons f rest ih =>
    intro s
    unfold cleanDirectoryGo
    cases hf : outcome f with
    | ok n =>
      simp only [cleanCsvStep, List.filterMap_cons, List.filter_cons, hf,
        fileResult_isOk_ok, if_true, List.map_cons]
      exact ⟨(ih _).1, by simp [(ih _).2]⟩
    | isEmpty =>
      simp only [cleanCsvStep, List.filterMap_cons, List.filter_cons, hf,
        fileResult_isOk_isEmpty]
      exact ⟨(ih _).1, by simp [(ih _).2]⟩
    | failed c =>
      simp only [cleanCsvStep, List.filterMap_cons, List.filter_cons, hf,
        fileResult_isOk_failed]
      refine ⟨?_, by simp [(ih _).2]⟩
      rw [(ih _).1]
      simp [List.append_assoc]

/-- If a non-numeric label occurs in the header, the typed row built by
`process_numeric_columns` contains a string cell for it. -/
theorem numericRow_str_mem {c : String} (hcn : c ∉ NUMERIC_COLUMNS) :
    ∀ (hdr row : List String), row.length = hdr.length → c ∈ hdr →
      ∃ v, Cell.str v ∈ (hdr.zip row).map
        (fun cv => if NUMERIC_COLUMNS.contains cv.1 then
            Cell.num (cleanNumericCell cv.2) else Cell.str cv.2) := by
  intro hdr
  induction hdr with
  | nil =>
    intro row _ hc
    simp at hc
  | cons a as ih =>
    intro row hlen hc
    cases row with
    | nil => simp at hlen
    | cons b bs =>
      simp only [List.length_cons, Nat.add_right_cancel_iff] at hlen
      rw [List.zip_cons_cons, List.map_cons]
      rcases List.mem_cons.1 hc with rfl | hmem
      · refine ⟨b, List.mem_cons.2 (Or.inl ?_)⟩
        rw [contains_eq_false_iff.2 hcn]
        rfl
      · obtain ⟨v, hv⟩ := ih bs hlen hmem
        exact ⟨v, List.mem_cons_of_mem _ hv⟩

/-!  Claim theorems. -/

/-- Claim C2: for the input string `03/04/2024` in a declared date column,
`parse_date_flexible` returns `2024-03-04`; the string is genuinely
ambiguous (the `%m/%d/%Y` pattern reads it as March 4 and the `%d/%m/%Y`
pattern as April 3), and the earlier pattern of the fixed ordered list
determines the result. -/
theorem claim_C2_ambiguous_date_mm_dd_wins :
    ∀ fb : String → Option YMD,
      parse_date_flexible fb "03/04/2024" = "2024-03-04"
      ∧ strptimeFmt ⟨.month, .day, .year, '/'⟩ "03/04/2024" = some ⟨2024, 3, 4⟩
      ∧ strptimeFmt ⟨.day, .month, .year, '/'⟩ "03/04/2024" = some ⟨2024, 4, 3⟩ :=
  fun _ => ⟨rfl, rfl, rfl⟩

/-- Claim C5: rendering the date 2024-01-15 in each of the six explicit
input formats and applying `parse_date_flexible` yields exactly
`2024-01-15`, whatever the permissive fallback parser does. -/
theorem claim_C5_roundtrip_2024_01_15 :
    ∀ fb : String → Option YMD, ∀ f ∈ dateFormats,
      parse_date_flexible fb (renderInFmt f ⟨2024, 1, 15⟩) = "2024-01-15" := by
  intro fb f hf
  fin_cases hf <;> rfl

/-- Witness for claim C5 at the `MM/DD/YYYY` format. -/
theorem claim_C5_roundtrip_2024_01_15_witness :
    parse_date_flexible fbNone
      (renderInFmt ⟨.month, .day, .year, '/'⟩ ⟨2024, 1, 15⟩) = "2024-01-15" :=
  claim_C5_roundtrip_2024_01_15 fbNone ⟨.month, .day, .year, '/'⟩ (by decide)

/-- Claim C6: in a declared numeric column, `"1,234"` normalizes to the
number 1234; a value that is empty after comma-stripping and
whitespace-trimming (the empty string in particular) normalizes to absent,
not zero; and a value on which the numeric parse still fails also becomes
absent — the coercion is total, never an error. -/
theorem claim_C6_numeric_cleaning :
    cleanNumericCell "1,234" = some ((1234 : Int) : Rat)
    ∧ cleanNumericCell "" = none
    ∧ (∀ s : String, pyStrip (stripCommas s) = "" → cleanNumericCell s = none)
    ∧ (∀ s : String,
        toNumeric (pyStrip (stripCommas s)) = none → cleanNumericCell s = none) := by
  refine ⟨by decide, rfl, ?_, ?_⟩
  · intro s h
    simp [cleanNumericCell, h]
  · intro s h
    unfold cleanNumericCell
    by_cases h2 : pyStrip (stripCommas s) = "" <;> simp [h2, h]

/-- Witness for claim C6: a whitespace-and-commas value becomes absent, and
an unparseable value becomes absent. -/
theorem claim_C6_numeric_cleaning_witness :
    cleanNumericCell " , " = none ∧ cleanNumericCell "abc" = none :=
  ⟨claim_C6_numeric_cleaning.2.2.1 " , " (by decide),
   claim_C6_numeric_cleaning.2.2.2 "abc" (by decide)⟩

/-- Claim C7: a source label survives `filter_and_rename_columns` to be
renamed exactly when it is present in the header, is a key of the column
mapping, and is not in the drop list — so a label in both the mapping and
the drop list is excluded, the drop list taking priority; the header
produced by the pipeline instance is the rename of exactly those
survivors. -/
theorem claim_C7_drop_list_priority :
    (∀ (mapping : List (String × String)) (dropSet cols : List String)
       (c : String),
       c ∈ survivorsWith mapping dropSet cols
         ↔ c ∈ cols ∧ c ∈ mappingKeys mapping ∧ c ∉ dropSet)
    ∧ (∀ t : RawTable,
        (filter_and_rename_columns t).hdr
          = (survivorsWith COLUMN_MAPPING COLUMNS_TO_DROP t.hdr).map
              (renameWith COLUMN_MAPPING)) := by
  constructor
  · intro mapping dropSet cols c
    simp only [survivorsWith, List.mem_filter, Bool.not_eq_true',
      contains_eq_true_iff, contains_eq_false_iff, and_assoc]
  · intro t
    rfl

/-- Claim C10: the only null-like token the field cleaner normalizes to the
empty string is the literal `nan` — a cell becomes empty exactly when its
trimmed value is empty or exactly `nan`; other missing-markers such as
`N/A`, `null` or `NaN` are left alone, and the date parser likewise treats
a bare `nan` as missing, so a genuine `nan` value is indistinguishable from
a missing one. -/
theorem claim_C10_nan_token :
    ∀ (fb : String → Option YMD) (s : String),
      (cleanStringCell s = "" ↔ pyStrip s = "" ∨ pyStrip s = "nan")
      ∧ cleanStringCell " nan " = ""
      ∧ cleanStringCell "N/A" = "N/A"
      ∧ cleanStringCell "null" = "null"
      ∧ cleanStringCell "NaN" = "NaN"
      ∧ parse_date_flexible fb "nan" = "" := by
  intro fb s
  refine ⟨?_, rfl, rfl, rfl, rfl, rfl⟩
  unfold cleanStringCell
  by_cases h : pyStrip s = "nan" <;> simp [h]

/-- Claim C3 counterexample: the candidate-encoding list is built without
removing duplicates — when the resolver guesses `utf-8`, the list is
`[utf-8, utf-8, latin1, cp1252]`, it differs from its deduplication, and
when every attempt fails the loop attempts `utf-8` twice. -/
theorem claim_C3_counterexample :
    candidateEncodings "utf-8" ≠ specDedup (candidateEncodings "utf-8")
    ∧ readAttempts (fun _ => .unicodeError) (candidateEncodings "utf-8")
        = ["utf-8", "utf-8", "latin1", "cp1252"]
    ∧ ¬ (readAttempts (fun _ => .unicodeError)
          (candidateEncodings "utf-8")).Nodup :=
  ⟨by decide, rfl, by decide⟩

/-- Claim C3 as amended: the ordered candidate list is literally
`[guess, utf-8, latin1, cp1252]` with no deduplication; when no candidate
succeeds every entry is attempted in order, and whenever the guess equals
one of the three fixed fallbacks that encoding occurs twice in the list
(and so is attempted twice on failure). -/
theorem claim_C3_amended_candidate_list :
    ∀ (guess : String) (attempt : String → ReadOutcome),
      candidateEncodings guess = [guess, "utf-8", "latin1", "cp1252"]
      ∧ ((∀ e, (attempt e).isOk = false) →
          readAttempts attempt (candidateEncodings guess) = candidateEncodings guess)
      ∧ (guess ∈ ["utf-8", "latin1", "cp1252"] →
          ¬ (candidateEncodings guess).Nodup) := by
  intro guess attempt
  refine ⟨rfl, fun h => readAttempts_all_fail attempt _ (fun e _ => h e), ?_⟩
  intro hg
  simp only [List.mem_cons, List.not_mem_nil, or_false] at hg
  rcases hg with rfl | rfl | rfl <;> decide

/-- Witness for amended claim C3 at the guess `latin1` and an attempt
function on which every encoding fails. -/
theorem claim_C3_amended_candidate_list_witness :
    readAttempts (fun _ => .unicodeError) (candidateEncodings "latin1")
      = candidateEncodings "latin1"
    ∧ ¬ (candidateEncodings "latin1").Nodup :=
  ⟨(claim_C3_amended_candidate_list "latin1" (fun _ => .unicodeError)).2.1
      (fun _ => rfl),
   (claim_C3_amended_candidate_list "latin1" (fun _ => .unicodeError)).2.2
      (by decide)⟩

/-- Claim C4 counterexample: on a zero-byte file every `pd.read_csv`
attempt raises `EmptyDataError`, not a decode error, yet
`read_csv_with_fallback` still fails with the unreadable-file exception —
so failing is not equivalent to every candidate encoding failing to
decode. -/
theorem claim_C4_counterexample :
    read_csv_with_fallback emptyFileAttempt "utf-8" "empty.csv"
      = .error "Failed to read empty.csv with any encoding"
    ∧ ∀ e ∈ candidateEncodings "utf-8", ¬ emptyFileAttempt e = .unicodeError :=
  ⟨rfl, by decide⟩

/-- Claim C4 as amended: `read_csv_with_fallback` fails — with an exception
whose message carries the file path — exactly when every candidate attempt
fails to read, whether through a decode error or any other per-encoding
read error; and the first candidate that reads successfully wins, with no
later candidate attempted after the success. -/
theorem claim_C4_amended_fallback_read :
    ∀ (attempt : String → ReadOutcome) (guess path : String),
      ((∃ msg, read_csv_with_fallback attempt guess path = .error msg
          ∧ msg = "Failed to read " ++ path ++ " with any encoding")
        ↔ ∀ e ∈ candidateEncodings guess, (attempt e).isOk = false)
      ∧ (∀ (pre post : List String) (e : String) (df : RawTable),
          candidateEncodings guess = pre ++ e :: post →
          (∀ x ∈ pre, (attempt x).isOk = false) →
          attempt e = .ok df →
          read_csv_with_fallback attempt guess path = .ok df
          ∧ readAttempts attempt (candidateEncodings guess) = pre ++ [e]) := by
  intro attempt guess path
  constructor
  · unfold read_csv_with_fallback
    cases h : readFallbackGo attempt (candidateEncodings guess) with
    | none =>
      simp only []
      constructor
      · intro _
        exact (readFallbackGo_eq_none_iff attempt _).1 h
      · intro _
        exact ⟨_, rfl, rfl⟩
    | some df =>
      simp only []
      constructor
      · rintro ⟨msg, hmsg, _⟩
        exact absurd hmsg (by simp)
      · intro hall
        rw [(readFallbackGo_eq_none_iff attempt _).2 hall] at h
        exact absurd h (by simp)
  · intro pre post e df hsplit hpre he
    have main := readFallbackGo_first_success attempt e df pre post hpre he
    rw [← hsplit] at main
    refine ⟨?_, main.2⟩
    unfold read_csv_with_fallback
    rw [main.1]

/-- Witness for amended claim C4: when the guess is `utf-8` and both
`utf-8` attempts fail while `latin1` succeeds, the read returns the
`latin1` parse and stops there. -/
theorem claim_C4_amended_fallback_read_witness :
    read_csv_with_fallback
      (fun e => if e = "latin1" then .ok ⟨["Material"], []⟩ else .unicodeError)
      "utf-8" "data.csv" = .ok ⟨["Material"], []⟩
    ∧ readAttempts
        (fun e => if e = "latin1" then .ok ⟨["Material"], []⟩ else .unicodeError)
        (candidateEncodings "utf-8") = ["utf-8", "utf-8", "latin1"] :=
  (claim_C4_amended_fallback_read
      (fun e => if e = "latin1" then .ok ⟨["Material"], []⟩ else .unicodeError)
      "utf-8" "data.csv").2
    ["utf-8", "utf-8"] ["cp1252"] "latin1" ⟨["Material"], []⟩
    (by decide) (by decide) (by decide)

/-- Claim C8: every per-file failure in a directory run is caught at the
file boundary and recorded in the error list as a message built from the
file path and the cause, the counters advance only for successes, outputs
named `cleaned_<name>` are written exactly for the successes, and in a run
over three files of which exactly one is corrupt the other two produce
cleaned output while the stats contain exactly one error naming the
corrupt file. -/
theorem claim_C8_per_file_isolation :
    (∀ (outcome : String → FileResult) (files : List String)
       (s : PipelineStats),
        (cleanDirectoryGo outcome files s).1.errors
          = s.errors ++ files.filterMap (fun f =>
              match outcome f with
              | .failed c => some (cleanErrMsg f c)
              | _ => none)
        ∧ (cleanDirectoryGo outcome files s).2
          = (files.filter (fun f => (outcome f).isOk)).map
              (fun f => "cleaned_" ++ f))
    ∧ (∀ p c, cleanErrMsg p c = "Failed to clean " ++ p ++ ": " ++ c)
    ∧ cleanDirectoryGo
        (fun f => if f = "bad.csv" then .failed "corrupt stream" else .ok 2)
        ["good1.csv", "bad.csv", "good2.csv"] ⟨0, 0, []⟩
        = (⟨2, 4, [cleanErrMsg "bad.csv" "corrupt stream"]⟩,
           ["cleaned_good1.csv", "cleaned_good2.csv"]) :=
  ⟨fun outcome files s => cleanDirectoryGo_spec outcome files s,
   fun _ _ => rfl, by decide⟩

/-- Claim C9: the dataset `clean_csv` writes is a deterministic function of
the parsed input alone — it does not depend on the accumulated process
statistics, so a second run on the same input (even after the first run
mutated the stats) produces an identical output dataset, hence a
byte-identical output file. -/
theorem claim_C9_deterministic_output :
    ∀ (fb : String → Option YMD) (path : String) (raw : Option RawTable)
      (s1 s2 : PipelineStats),
      (cleanCsvData fb path raw s1).2 = (cleanCsvData fb path raw s2).2
      ∧ (cleanCsvData fb path raw (cleanCsvData fb path raw s1).1).2
          = (cleanCsvData fb path raw s1).2 := by
  intro fb path raw s1 s2
  cases raw with
  | none => exact ⟨rfl, rfl⟩
  | some t =>
    by_cases h : t.hdr.isEmpty || t.rows.isEmpty <;>
      simp [cleanCsvData, h]

/-- Claim C1 counterexample: a one-column dataset built by the pipeline
from the mapped header `Carrier` and a single all-empty row — every mapped
field of the row is the empty string, yet `empty_rows` is 0, because
`df.isnull()` is false on an empty string. -/
theorem claim_C1_counterexample :
    (cleanPipeline fbNone ⟨["Carrier"], [[""]]⟩).rows = [[Cell.str ""]]
    ∧ (validate_data (cleanPipeline fbNone ⟨["Carrier"], [[""]]⟩)).total_rows = 1
    ∧ (validate_data (cleanPipeline fbNone ⟨["Carrier"], [[""]]⟩)).empty_rows = 0 :=
  ⟨rfl, rfl, rfl⟩

/-- Claim C1 as amended: `empty_rows` counts the rows all of whose cells
are null in the pandas sense, i.e. the `NaN` results of numeric coercion;
empty strings in string-typed (non-numeric) columns are not null, so
whenever the cleaned dataset has any non-numeric column, `empty_rows` is 0
even for rows whose every field is the empty string; a fully-empty row is
counted exactly when every column of the dataset is numeric, as in a
dataset with the single column `Quantity`. -/
theorem claim_C1_amended_empty_rows :
    ∀ (fb : String → Option YMD) (t : RawTable), wfTable t →
      ((validate_data (cleanPipeline fb t)).empty_rows
          = ((cleanPipeline fb t).rows.filter (fun r => r.all cellIsNull)).length
        ∧ ((∃ c ∈ (cleanPipeline fb t).hdr, c ∉ NUMERIC_COLUMNS) →
            (validate_data (cleanPipeline fb t)).empty_rows = 0)
        ∧ (validate_data (cleanPipeline fb ⟨["Quantity"], [[""]]⟩)).empty_rows
            = 1) := by
  intro fb t hwf
  refine ⟨rfl, ?_, rfl⟩
  rintro ⟨c, hc, hcn⟩
  have hwf4 : wfTable (process_date_columns fb
      (clean_string_data (filter_and_rename_columns (clean_column_names t)))) :=
    wf_process_date_columns
      (wf_clean_string_data
        (wf_filter_and_rename_columns (wf_clean_column_names hwf)))
  show ((cleanPipeline fb t).rows.filter (fun r => r.all cellIsNull)).length = 0
  rw [List.length_eq_zero, List.filter_eq_nil_iff]
  intro r hr
  simp only [cleanPipeline, process_numeric_columns, List.mem_map] at hr
  obtain ⟨r0, hr0, rfl⟩ := hr
  have hc4 : c ∈ (process_date_columns fb
      (clean_string_data (filter_and_rename_columns (clean_column_names t)))).hdr := hc
  obtain ⟨v, hv⟩ := numericRow_str_mem hcn _ r0 (hwf4 r0 hr0) hc4
  intro hall
  have := List.all_eq_true.1 hall _ hv
  simp [cellIsNull] at this

/-- Witness for amended claim C1 at the counterexample input: the cleaned
dataset has the non-numeric column `carrier_name`, so `empty_rows` is 0. -/
theorem claim_C1_amended_empty_rows_witness :
    (validate_data (cleanPipeline fbNone ⟨["Carrier"], [[""]]⟩)).empty_rows = 0 :=
  (claim_C1_amended_empty_rows fbNone ⟨["Carrier"], [[""]]⟩
      (by intro r hr; rw [List.mem_singleton] at hr; subst hr; rfl)).2.1
    ⟨"carrier_name", by decide, by decide⟩

end CsvCleaning
